import Mathlib

/-!
Shallow embedding of the PNU cloud-computing fleet controller:
the autoscaler tick (`autoscaler/autoscaler.py`), the discovery /
health-check pass (`load_balancer/health_check.py`), the balancer
state and selection policy (`load_balancer/balancer.py`), and the
proxy frontend's `/load` retry loop and `/set_mode` endpoint
(`load_balancer/server.py`).  Times, latencies and CPU fractions are
rationals; network and container-runtime I/O is abstracted as oracle
parameters (probe results, forward outcomes, the metric fetch).
-/

namespace Fleet

/-! ### Autoscaler (`autoscaler/autoscaler.py`) -/

/-- A container in the fleet snapshot; `fixed` is `DockerManager._is_fixed`. -/
structure Container where
  name : String
  fixed : Bool
deriving DecidableEq, Repr

/-- Configuration fields of `AutoScaler.__init__`. -/
structure Config where
  threshold : ℚ
  min : Nat
  max : Nat
  interval : ℚ
deriving DecidableEq, Repr

/-- Mutable state of the autoscaler: the two breach timers and the cooldown marker. -/
structure AState where
  above_since : Option ℚ
  below_since : Option ℚ
  last_scale_time : Option ℚ
deriving DecidableEq, Repr

/-- The docker-side effect a tick performs, if any. -/
inductive ScaleAction where
  | run
  | remove (c : Container)
deriving DecidableEq, Repr

/-- `if self.last_scale_time and (now - self.last_scale_time) < self.interval`.
Python truthiness: `None` and `0.0` are both falsy. -/
def cooldown_skip (cfg : Config) (st : AState) (now1 : ℚ) : Bool :=
  match st.last_scale_time with
  | none => false
  | some t => if t = 0 then false else decide (now1 - t < cfg.interval)

/-- `avg_cpu = raw / (count * num_cpus) * 100` when `count > 0`, else `0.0`. -/
def avg_cpu (raw : ℚ) (count : Nat) (ncpus : ℚ) : ℚ :=
  if 0 < count then raw / (count * ncpus) * 100 else 0

/-- The scale-in band of `AutoScaler.scale` (`avg_cpu < threshold*100/2`),
applied after the scale-out band has updated `above_since`. -/
def scale_in_step (cfg : Config) (st : AState) (containers autoscaled : List Container)
    (count : Nat) (now2 avg : ℚ) : AState × Option ScaleAction :=
  if avg < cfg.threshold * 100 / 2 then
    match st.below_since with
    | none => ({ st with below_since := some now2 }, none)
    | some b =>
      if now2 - b ≥ 1 * 60 ∧ cfg.min < count then
        match containers.getLast? with
        | some target =>
          if target.fixed then (st, none)
          else ({ above_since := none, below_since := none, last_scale_time := some now2 },
                some (.remove target))
        | none => (st, none)
      else if now2 - b ≥ 15 ∧ autoscaled.isEmpty = false then
        match autoscaled.getLast? with
        | some target =>
          ({ above_since := none, below_since := none, last_scale_time := some now2 },
           some (.remove target))
        | none => (st, none)
      else if now2 - b ≥ 30 then (st, none)
      else (st, none)
  else ({ st with below_since := none }, none)

/-- The scale-out band of `AutoScaler.scale` (`avg_cpu > threshold*100`),
falling through into the scale-in band unless a scale-out fires. -/
def apply_bands (cfg : Config) (st : AState) (containers : List Container)
    (now2 avg : ℚ) : AState × Option ScaleAction :=
  let autoscaled := containers.filter (fun c => !c.fixed)
  let count := containers.length
  if avg > cfg.threshold * 100 then
    match st.above_since with
    | none =>
      scale_in_step cfg { st with above_since := some now2 } containers autoscaled count now2 avg
    | some a =>
      if now2 - a ≥ 3 * 60 ∧ count < cfg.max then
        ({ above_since := none, below_since := none, last_scale_time := some now2 }, some .run)
      else scale_in_step cfg st containers autoscaled count now2 avg
  else scale_in_step cfg { st with above_since := none } containers autoscaled count now2 avg

/-- One `AutoScaler.scale` tick.  `now1` is the `time.time()` taken before the
metric fetch (floor stamp, cooldown check), `now2` the one taken after it
(band logic); `fetch = none` models a Prometheus query that raised. -/
def scale (cfg : Config) (st : AState) (containers : List Container)
    (now1 now2 ncpus : ℚ) (fetch : Option ℚ) : AState × Option ScaleAction :=
  let count := containers.length
  if count < cfg.min then
    ({ above_since := none, below_since := none, last_scale_time := some now1 }, some .run)
  else if cooldown_skip cfg st now1 then (st, none)
  else
    match fetch with
    | none => (st, none)
    | some raw => apply_bands cfg st containers now2 (avg_cpu raw count ncpus)

/-- States of the autoscaler reachable from the fresh `__init__` state
(all three timestamps `None`) by any sequence of ticks. -/
inductive Reachable (cfg : Config) : AState → Prop where
  | init : Reachable cfg ⟨none, none, none⟩
  | step (s : AState) (containers : List Container) (now1 now2 ncpus : ℚ)
      (fetch : Option ℚ) : Reachable cfg s →
      Reachable cfg (scale cfg s containers now1 now2 ncpus fetch).1

/-! ### Worker descriptors and balancer state (`load_balancer/balancer.py`) -/

/-- A probe latency: `float('inf')` or a finite number of seconds. -/
inductive Latency where
  | inf
  | fin (seconds : ℚ)
deriving DecidableEq, Repr

/-- Python `<` on latencies (`inf` compares greater than every finite value). -/
def Latency.lt : Latency → Latency → Bool
  | .fin a, .fin b => decide (a < b)
  | .fin _, .inf => true
  | .inf, _ => false

/-- One backend server dict built by `check_servers`. -/
structure Server where
  container_id : String
  container_name : String
  ip : String
  host : String
  status : String
  latency : Latency
deriving DecidableEq, Repr

/-- The module-level balancer variables `backend_servers`, `current_index`,
`selection_mode`. -/
structure BalancerState where
  backend_servers : List Server
  current_index : Nat
  selection_mode : String
deriving DecidableEq, Repr

/-- `update_backend_servers`: install the new list, resetting the cursor to 0
when it is out of range. -/
def update_backend_servers (new_list : List Server) (st : BalancerState) : BalancerState :=
  let st2 := { st with backend_servers := new_list }
  if st2.current_index ≥ new_list.length then { st2 with current_index := 0 } else st2

/-- Python `min(xs, key=...)` with `<` given as a Boolean relation: the first
minimal element wins ties. -/
def pymin (lt : Server → Server → Bool) : List Server → Option Server
  | [] => none
  | s :: rest => some (rest.foldl (fun best x => if lt x best then x else best) s)

/-- `choose_backend`: filter to status `healthy`, dispatch on `selection_mode`;
an unknown mode raises `ValueError` (the `.error` case).  Returns the chosen
server together with the updated cursor state. -/
def choose_backend (st : BalancerState) : Except String (Option Server × BalancerState) :=
  let healthy_servers := st.backend_servers.filter (fun s => s.status == "healthy")
  if h : healthy_servers.isEmpty then .ok (none, st)
  else if st.selection_mode == "round_robin" then
    have hne : healthy_servers ≠ [] := by
      simpa [List.isEmpty_iff] using h
    have hlen : st.current_index % healthy_servers.length < healthy_servers.length :=
      Nat.mod_lt _ (List.length_pos.mpr hne)
    let server := healthy_servers.get ⟨st.current_index % healthy_servers.length, hlen⟩
    .ok (some server,
         { st with current_index := (st.current_index + 1) % healthy_servers.length })
  else if st.selection_mode == "latency" then
    .ok (pymin (fun a b => Latency.lt a.latency b.latency) healthy_servers, st)
  else .error ("Unknown selection mode: " ++ st.selection_mode)

/-- `valid_modes` of the `/set_mode/<mode>` handler. -/
def valid_modes : List String := ["round_robin", "latency", "least_connections", "weighted"]

/-- `set_mode`: HTTP status returned and resulting balancer state. -/
def set_mode (mode : String) (st : BalancerState) : Nat × BalancerState :=
  if valid_modes.contains mode then (200, { st with selection_mode := mode })
  else (400, st)

/-! ### Discovery and health probing (`load_balancer/health_check.py`) -/

/-- Outcome of one `requests.get(<host>/health, timeout=15)` call. -/
inductive ProbeResult where
  | ok (latency : ℚ)
  | non200 (code : Nat)
  | timeout
  | connError
  | exc
deriving DecidableEq, Repr

/-- The `server_last_success` defaultdict: host url to last success time,
defaulting to `0`. -/
abbrev HostLog := List (String × ℚ)

def logGet (log : HostLog) (host : String) : ℚ :=
  match log.find? (fun p => p.1 == host) with
  | some p => p.2
  | none => 0

def logSet (log : HostLog) (host : String) (t : ℚ) : HostLog :=
  (host, t) :: log.filter (fun p => p.1 != host)

/-- The per-server probe classification inside the `for server in servers`
loop of `check_servers`: HTTP 200 records the latency; the non-200, timeout,
connection-error and generic-exception branches each write status
`healthy` with latency `inf` (mirroring the source branch for branch). -/
def probeOne (s : Server) (r : ProbeResult) : Server :=
  match r with
  | .ok lat => { s with status := "healthy", latency := .fin lat }
  | .non200 _ => { s with status := "healthy", latency := .inf }
  | .timeout => { s with status := "healthy", latency := .inf }
  | .connError => { s with status := "healthy", latency := .inf }
  | .exc => { s with status := "healthy", latency := .inf }

/-- The probe loop over the discovered servers, threading the
`server_last_success` log (updated only on HTTP 200). -/
def probeAll (now : ℚ) (probe : String → ProbeResult) :
    List Server → HostLog → List Server × HostLog
  | [], log => ([], log)
  | s :: rest, log =>
    let s2 := probeOne s (probe s.host)
    let log2 :=
      match probe s.host with
      | .ok _ => logSet log s.host now
      | _ => log
    let out := probeAll now probe rest log2
    (s2 :: out.1, out.2)

/-- One pass of `check_servers`, from the discovered server list to the
published balancer state.  Returns the new balancer state, the updated
success log, and the number of seconds slept before the next pass: an empty
discovery sleeps 30s and publishes nothing (`continue`); otherwise the
probed list is published via `update_backend_servers` and the pass waits on
the immediate-check event with a 300s timeout.  The grace-window block sits
after the loop, referring to the loop variable, i.e. to the last server. -/
def checkServersPass (now : ℚ) (probe : String → ProbeResult) (discovered : List Server)
    (log : HostLog) (st : BalancerState) : BalancerState × HostLog × ℚ :=
  if discovered.isEmpty then (st, log, 30)
  else
    let out := probeAll now probe discovered log
    let probed := out.1
    let log2 := out.2
    let probed2 :=
      match probed.getLast? with
      | none => probed
      | some lastS =>
        if now - logGet log2 lastS.host < 600 ∧ lastS.status = "unhealthy" then
          probed.dropLast ++ [{ lastS with status := "healthy", latency := .inf }]
        else probed
    (update_backend_servers probed2 st, log2, 300)

/-! ### Proxy frontend (`load_balancer/server.py`) -/

/-- What `route_request` answers the client. -/
inductive RouteResult where
  | tooLarge
  | noHealthy
  | ok (status : Nat) (body : String)
  | allFailed
  | modeError (msg : String)
deriving DecidableEq, Repr

/-- An upstream response observed by `forward_request` (abstracting its three
internal attempts); `none` means the whole per-worker attempt budget failed. -/
structure Resp where
  status : Nat
  body : String
deriving DecidableEq, Repr

/-- The `for retry in range(5)` loop of `route_request`.  `fw` maps the retry
round and current server to the outcome of `forward_request`; a new server is
chosen only while `retry < 2`.  The third component counts calls to
`choose_backend` made so far. -/
def routeLoop (fw : Nat → Server → Option Resp) (server : Server) (st : BalancerState)
    (picks retry : Nat) : Nat → RouteResult × BalancerState × Nat
  | 0 => (.allFailed, st, picks)
  | fuel + 1 =>
    match fw retry server with
    | some r => (.ok r.status r.body, st, picks)
    | none =>
      if retry < 2 then
        match choose_backend st with
        | .error msg => (.modeError msg, st, picks + 1)
        | .ok (none, st2) => (.allFailed, st2, picks + 1)
        | .ok (some s2, st2) => routeLoop fw s2 st2 (picks + 1) (retry + 1) fuel
      else routeLoop fw server st picks (retry + 1) fuel

/-- The `/load` handler `route_request`: the 5 MiB content-length gate
(Python truthiness: a missing or zero `Content-Length` skips the check),
initial selection, then the cross-worker retry loop with 5 rounds. -/
def route_request (st : BalancerState) (content_length : Option Nat)
    (fw : Nat → Server → Option Resp) : RouteResult × BalancerState × Nat :=
  let too_large : Bool :=
    match content_length with
    | none => false
    | some n => if n = 0 then false else decide (n > 5 * 1024 * 1024)
  if too_large then (.tooLarge, st, 0)
  else
    match choose_backend st with
    | .error msg => (.modeError msg, st, 1)
    | .ok (none, st2) => (.noHealthy, st2, 1)
    | .ok (some s, st2) => routeLoop fw s st2 1 0 5

/-! ### Concrete instances used to exercise the embedding -/

/-- `CPU_THRESHOLD=0.5, MIN_INSTANCES=1, MAX_INSTANCES=10, CHECK_INTERVAL=30`. -/
def cfg0 : Config := { threshold := 1/2, min := 1, max := 10, interval := 30 }

/-- The balancer module state at import time: empty list, cursor 0, round robin. -/
def bal0 : BalancerState :=
  { backend_servers := [], current_index := 0, selection_mode := "round_robin" }

/-- A healthy worker descriptor with all string fields set to `n`. -/
def mkServer (n : String) : Server :=
  { container_id := n, container_name := n, ip := n, host := n,
    status := "healthy", latency := .inf }

/-- Six healthy workers. -/
def sixServers : List Server :=
  [mkServer "a", mkServer "b", mkServer "c", mkServer "d", mkServer "e", mkServer "f"]

/-- Balancer state routing over the six workers, cursor 0, round robin. -/
def balSix : BalancerState :=
  { backend_servers := sixServers, current_index := 0, selection_mode := "round_robin" }

/-- Balancer state whose cursor (3) exceeds the length of the next published set. -/
def balCursor3 : BalancerState :=
  { backend_servers := [], current_index := 3, selection_mode := "round_robin" }

/-- A just-discovered worker, pre-probe (`status` `unknown` as in `check_servers`). -/
def w1 : Server :=
  { container_id := "abc123456789", container_name := "backend-1", ip := "10.0.0.2",
    host := "http://10.0.0.2:5000", status := "unknown", latency := .inf }

/-- At most one of the two breach timers is set. -/
def atMostOne (s : AState) : Prop :=
  s.above_since = none ∨ s.below_since = none

/-! ### Helper lemmas on the proxy retry loop -/

lemma routeLoop_picks_le (fw : Nat → Server → Option Resp) :
    ∀ (fuel : Nat) (server : Server) (st : BalancerState) (picks retry : Nat),
      (routeLoop fw server st picks retry fuel).2.2 ≤ picks + (2 - retry) := by
  intro fuel
  induction fuel with
  | zero => intro server st picks retry; simp [routeLoop]
  | succ n ih =>
    intro server st picks retry
    unfold routeLoop
    cases hfw : fw retry server with
    | some r => simp
    | none =>
      by_cases hr : retry < 2
      · simp only [hr, if_true]
        cases hc : choose_backend st with
        | error msg => simp; omega
        | ok p =>
          rcases p with ⟨os, st2⟩
          cases os with
          | none => simp; omega
          | some s2 =>
            have h := ih s2 st2 (picks + 1) (retry + 1)
            simp only
            omega
      · simp only [hr, if_false]
        have h := ih server st picks (retry + 1)
        omega

lemma routeLoop_picks_ge (fw : Nat → Server → Option Resp) :
    ∀ (fuel : Nat) (server : Server) (st : BalancerState) (picks retry : Nat),
      picks ≤ (routeLoop fw server st picks retry fuel).2.2 := by
  intro fuel
  induction fuel with
  | zero => intro server st picks retry; simp [routeLoop]
  | succ n ih =>
    intro server st picks retry
    unfold routeLoop
    cases hfw : fw retry server with
    | some r => simp
    | none =>
      by_cases hr : retry < 2
      · simp only [hr, if_true]
        cases hc : choose_backend st with
        | error msg => simp
        | ok p =>
          rcases p with ⟨os, st2⟩
          cases os with
          | none => simp
          | some s2 =>
            have h := ih s2 st2 (picks + 1) (retry + 1)
            simp only
            omega
      · simp only [hr, if_false]
        exact ih server st picks (retry + 1)

lemma choose_backend_round_robin (st : BalancerState)
    (hm : st.selection_mode = "round_robin")
    (hne : (st.backend_servers.filter (fun s => s.status == "healthy")).isEmpty = false) :
    ∃ w, choose_backend st
      = .ok (some w, { st with current_index :=
          (st.current_index + 1) %
            (st.backend_servers.filter (fun s => s.status == "healthy")).length }) := by
  unfold choose_backend
  rw [dif_neg (by simp [hne])]
  simp only [hm, beq_self_eq_true, if_true]
  exact ⟨_, rfl⟩

lemma routeLoop_all_fail (fw : Nat → Server → Option Resp) (hfw : ∀ k s, fw k s = none) :
    ∀ (fuel : Nat) (server : Server) (st : BalancerState) (picks retry : Nat),
      st.selection_mode = "round_robin" →
      (st.backend_servers.filter (fun s => s.status == "healthy")).isEmpty = false →
      (routeLoop fw server st picks retry fuel).1 = .allFailed := by
  intro fuel
  induction fuel with
  | zero => intro server st picks retry _ _; simp [routeLoop]
  | succ n ih =>
    intro server st picks retry hm hne
    unfold routeLoop
    rw [hfw retry server]
    by_cases hr : retry < 2
    · simp only [hr, if_true]
      obtain ⟨w, hch⟩ := choose_backend_round_robin st hm hne
      rw [hch]
      exact ih w _ (picks + 1) (retry + 1) hm hne
    · simp only [hr, if_false]
      exact ih server st picks (retry + 1) hm hne

/-! ### Helper lemmas on the autoscaler bands -/

lemma mem_of_getLast?_eq {α : Type} {l : List α} {a : α} (h : l.getLast? = some a) :
    a ∈ l := by
  have ha : a ∈ l.getLast? := by simp [Option.mem_def, h]
  obtain ⟨hne, rfl⟩ := List.mem_getLast?_eq_getLast ha
  exact List.getLast_mem hne

lemma scale_in_step_action_clears (cfg : Config) (st : AState)
    (containers autoscaled : List Container) (count : Nat) (now2 avg : ℚ)
    (a : ScaleAction) :
    (scale_in_step cfg st containers autoscaled count now2 avg).2 = some a →
    (scale_in_step cfg st containers autoscaled count now2 avg).1
      = ⟨none, none, some now2⟩ := by
  unfold scale_in_step
  repeat' split
  all_goals intro h
  all_goals (first | rfl | simp_all)

lemma scale_in_step_no_run (cfg : Config) (st : AState)
    (containers autoscaled : List Container) (count : Nat) (now2 avg : ℚ) :
    (scale_in_step cfg st containers autoscaled count now2 avg).2 ≠ some .run := by
  unfold scale_in_step
  repeat' split
  all_goals simp

lemma scale_in_step_remove (cfg : Config) (st : AState)
    (containers autoscaled : List Container) (count : Nat) (now2 avg : ℚ)
    (c : Container) :
    (scale_in_step cfg st containers autoscaled count now2 avg).2
        = some (.remove c) →
    cfg.min < count ∨ (c ∈ autoscaled ∧ ∃ b, st.below_since = some b ∧ now2 - b ≥ 15) := by
  unfold scale_in_step
  repeat' split
  all_goals intro h
  all_goals simp at h
  · rename_i hbelow hcond xc target hlast hfix
    subst h
    exact Or.inl hcond.2
  · rename_i hbelow hneg hcond xc target hlast
    subst h
    exact Or.inr ⟨mem_of_getLast?_eq hlast, _, hbelow, hcond.1⟩

lemma scale_in_step_above_none (cfg : Config) (st : AState)
    (containers autoscaled : List Container) (count : Nat) (now2 avg : ℚ)
    (h : st.above_since = none) :
    (scale_in_step cfg st containers autoscaled count now2 avg).1.above_since = none := by
  unfold scale_in_step
  repeat' split
  all_goals simp_all

lemma scale_in_step_below_none (cfg : Config) (st : AState)
    (containers autoscaled : List Container) (count : Nat) (now2 avg : ℚ)
    (h : ¬ avg < cfg.threshold * 100 / 2) :
    (scale_in_step cfg st containers autoscaled count now2 avg).1.below_since = none := by
  unfold scale_in_step
  rw [if_neg h]

lemma scale_in_step_atMostOne (cfg : Config) (st : AState)
    (containers autoscaled : List Container) (count : Nat) (now2 avg : ℚ)
    (h : avg < cfg.threshold * 100 / 2 → st.above_since = none) :
    atMostOne (scale_in_step cfg st containers autoscaled count now2 avg).1 := by
  unfold atMostOne scale_in_step
  repeat' split
  all_goals simp_all

lemma apply_bands_action_clears (cfg : Config) (st : AState)
    (containers : List Container) (now2 avg : ℚ) (a : ScaleAction) :
    (apply_bands cfg st containers now2 avg).2 = some a →
    (apply_bands cfg st containers now2 avg).1 = ⟨none, none, some now2⟩ := by
  simp only [apply_bands]
  repeat' split
  all_goals intro h
  all_goals try exact scale_in_step_action_clears _ _ _ _ _ _ _ _ h
  all_goals rfl

lemma apply_bands_run (cfg : Config) (st : AState)
    (containers : List Container) (now2 avg : ℚ) :
    (apply_bands cfg st containers now2 avg).2 = some .run →
    containers.length < cfg.max := by
  simp only [apply_bands]
  repeat' split
  all_goals intro h
  all_goals try exact absurd h (scale_in_step_no_run _ _ _ _ _ _ _)
  · rename_i hcond
    exact hcond.2

lemma apply_bands_remove (cfg : Config) (st : AState)
    (containers : List Container) (now2 avg : ℚ) (c : Container) :
    (apply_bands cfg st containers now2 avg).2 = some (.remove c) →
    cfg.min < containers.length ∨
      (c.fixed = false ∧ ∃ b, st.below_since = some b ∧ now2 - b ≥ 15) := by
  have hfix : ∀ d, d ∈ containers.filter (fun x => !x.fixed) → d.fixed = false := by
    intro d hd
    have := (List.mem_filter.1 hd).2
    simpa using this
  simp only [apply_bands]
  repeat' split
  all_goals intro h
  all_goals try (simp at h)
  all_goals
    rcases scale_in_step_remove _ _ _ _ _ _ _ _ h with hc | ⟨hmem, b, hb, h15⟩
  all_goals try (exact Or.inl hc)
  all_goals exact Or.inr ⟨hfix _ hmem, b, hb, h15⟩

lemma apply_bands_atMostOne (cfg : Config) (st : AState)
    (containers : List Container) (now2 avg : ℚ) (hT : 0 ≤ cfg.threshold) :
    atMostOne (apply_bands cfg st containers now2 avg).1 := by
  simp only [apply_bands]
  repeat' split
  all_goals try exact Or.inl rfl
  · rename_i hgt xa
    refine scale_in_step_atMostOne _ _ _ _ _ _ _ (fun hlt => ?_)
    exfalso
    have hhalf : cfg.threshold * 100 / 2 ≤ cfg.threshold * 100 := by linarith
    linarith
  · rename_i hgt xa ta hcond
    refine scale_in_step_atMostOne _ _ _ _ _ _ _ (fun hlt => ?_)
    exfalso
    have hhalf : cfg.threshold * 100 / 2 ≤ cfg.threshold * 100 := by linarith
    linarith
  · rename_i hle
    exact scale_in_step_atMostOne _ _ _ _ _ _ _ (fun _ => rfl)


lemma apply_bands_above_none (cfg : Config) (st : AState)
    (containers : List Container) (now2 avg : ℚ)
    (h : ¬ avg > cfg.threshold * 100) :
    (apply_bands cfg st containers now2 avg).1.above_since = none := by
  simp only [apply_bands]
  rw [if_neg h]
  exact scale_in_step_above_none _ _ _ _ _ _ _ rfl

lemma apply_bands_below_none (cfg : Config) (st : AState)
    (containers : List Container) (now2 avg : ℚ)
    (h : ¬ avg < cfg.threshold * 100 / 2) :
    (apply_bands cfg st containers now2 avg).1.below_since = none := by
  simp only [apply_bands]
  repeat' split
  all_goals try exact scale_in_step_below_none _ _ _ _ _ _ _ h
  all_goals rfl

lemma scale_action_clears (cfg : Config) (st : AState) (containers : List Container)
    (now1 now2 ncpus : ℚ) (fetch : Option ℚ) (a : ScaleAction) :
    (scale cfg st containers now1 now2 ncpus fetch).2 = some a →
    (scale cfg st containers now1 now2 ncpus fetch).1.above_since = none ∧
    (scale cfg st containers now1 now2 ncpus fetch).1.below_since = none ∧
    ((containers.length < cfg.min ∧
        (scale cfg st containers now1 now2 ncpus fetch).1.last_scale_time = some now1) ∨
     (¬ containers.length < cfg.min ∧
        (scale cfg st containers now1 now2 ncpus fetch).1.last_scale_time = some now2)) := by
  simp only [scale]
  repeat' split
  all_goals intro h
  · rename_i hc
    exact ⟨rfl, rfl, Or.inl ⟨hc, rfl⟩⟩
  · simp at h
  · simp at h
  · have hst := apply_bands_action_clears _ _ _ _ _ _ h
    rw [hst]
    exact ⟨rfl, rfl, Or.inr ⟨by assumption, rfl⟩⟩

lemma scale_atMostOne (cfg : Config) (st : AState) (containers : List Container)
    (now1 now2 ncpus : ℚ) (fetch : Option ℚ) (hT : 0 ≤ cfg.threshold)
    (hst : atMostOne st) :
    atMostOne (scale cfg st containers now1 now2 ncpus fetch).1 := by
  simp only [scale]
  repeat' split
  all_goals try exact hst
  all_goals try exact Or.inl rfl
  all_goals exact apply_bands_atMostOne _ _ _ _ _ hT

lemma reachable_atMostOne (cfg : Config) (hT : 0 ≤ cfg.threshold) (s : AState)
    (hr : Reachable cfg s) : atMostOne s := by
  induction hr with
  | init => exact Or.inl rfl
  | step s containers now1 now2 ncpus fetch hr ih =>
    exact scale_atMostOne cfg s containers now1 now2 ncpus fetch hT ih

lemma route_request_none (st : BalancerState) (fw : Nat → Server → Option Resp) :
    route_request st none fw
      = match choose_backend st with
        | .error msg => (.modeError msg, st, 1)
        | .ok (none, st2) => (.noHealthy, st2, 1)
        | .ok (some s, st2) => routeLoop fw s st2 1 0 5 := rfl

lemma routeLoop_not_tooLarge (fw : Nat → Server → Option Resp) :
    ∀ (fuel : Nat) (server : Server) (st : BalancerState) (picks retry : Nat),
      (routeLoop fw server st picks retry fuel).1 ≠ .tooLarge := by
  intro fuel
  induction fuel with
  | zero => intro server st picks retry; simp [routeLoop]
  | succ n ih =>
    intro server st picks retry
    unfold routeLoop
    cases hfw : fw retry server with
    | some r => simp
    | none =>
      by_cases hr : retry < 2
      · simp only [hr, if_true]
        cases hc : choose_backend st with
        | error msg => simp
        | ok p =>
          rcases p with ⟨os, st2⟩
          cases os with
          | none => simp
          | some s2 => exact ih s2 st2 (picks + 1) (retry + 1)
      · simp only [hr, if_false]
        exact ih server st picks (retry + 1)

/-! ### Claim theorems -/

/-- C1 (code bug exhibit): a worker whose health probe returns HTTP 500, with
no recorded success (`last_success_ts = 0`) and `now = 1000`, far outside the
600s grace window, is nonetheless published in the routable set with status
`healthy` and latency ∞ — the failure branches of `check_servers` write
`healthy` instead of `unhealthy`, so the claimed classification never
happens. -/
theorem c1_failed_probe_published_healthy :
    (checkServersPass 1000 (fun _ => .non200 500) [w1] [] bal0).1.backend_servers
        = [{ w1 with status := "healthy", latency := .inf }] ∧
    1000 - logGet (checkServersPass 1000 (fun _ => .non200 500) [w1] [] bal0).2.1 w1.host
        ≥ 600 := by
  constructor
  · simp only [checkServersPass, probeAll, probeOne, update_backend_servers, logGet,
      logSet, w1, bal0]
    norm_num
  · simp only [checkServersPass, probeAll, probeOne, update_backend_servers, logGet,
      logSet, w1, bal0]
    norm_num

/-- C2 (counterexample): with `min_instances = 1` and a single autoscaled
container, a below-band dwell of 20s fires the 15-second scale-in branch and
removes the container although `count = min_instances`, contradicting the
claim that a scale-in removal never fires when `count ≤ min_instances`. -/
theorem c2_counterexample :
    (scale cfg0 ⟨none, some 0, none⟩ [⟨"w1", false⟩] 20 20 1 (some 0)).2
        = some (.remove ⟨"w1", false⟩) ∧
    ¬ cfg0.min < ([⟨"w1", false⟩] : List Container).length := by
  constructor
  · simp only [scale, apply_bands, scale_in_step, cooldown_skip, avg_cpu, cfg0]
    norm_num
  · simp [cfg0]

/-- C2 (amended): a scale-out start fires only when `count < max_instances`
(or via floor enforcement when `count < min_instances`); a scale-in removal
fires only when `count > min_instances`, or through the 15-second branch,
which removes an autoscaled (non-fixed) container after a 15s below-band
dwell even when `count ≤ min_instances`. -/
theorem c2_amended_bounds (cfg : Config) (st : AState) (containers : List Container)
    (now1 now2 ncpus : ℚ) (fetch : Option ℚ) :
    ((scale cfg st containers now1 now2 ncpus fetch).2 = some .run →
      containers.length < cfg.min ∨ containers.length < cfg.max) ∧
    (∀ c, (scale cfg st containers now1 now2 ncpus fetch).2 = some (.remove c) →
      cfg.min < containers.length ∨
        (c.fixed = false ∧ ∃ b, st.below_since = some b ∧ now2 - b ≥ 15)) := by
  constructor
  · intro h
    by_cases hfloor : containers.length < cfg.min
    · exact Or.inl hfloor
    · right
      simp only [scale, if_neg hfloor] at h
      by_cases hcd : cooldown_skip cfg st now1 = true
      · rw [if_pos hcd] at h
        simp at h
      · rw [if_neg hcd] at h
        cases fetch with
        | none => simp at h
        | some raw => exact apply_bands_run _ _ _ _ _ h
  · intro c h
    by_cases hfloor : containers.length < cfg.min
    · simp only [scale, if_pos hfloor] at h
      simp at h
    · simp only [scale, if_neg hfloor] at h
      by_cases hcd : cooldown_skip cfg st now1 = true
      · rw [if_pos hcd] at h
        simp at h
      · rw [if_neg hcd] at h
        cases fetch with
        | none => simp at h
        | some raw => exact apply_bands_remove _ _ _ _ _ _ h

/-- C2 (witness): the floor-enforcement branch fires a scale-out at a concrete
fleet below the minimum. -/
theorem c2_amended_bounds_witness :
    ([] : List Container).length < cfg0.min ∨ ([] : List Container).length < cfg0.max :=
  (c2_amended_bounds cfg0 ⟨none, none, none⟩ [] 0 0 1 none).1 (by decide)

/-- C4 (counterexample): a discovery pass that finds zero workers leaves the
previously published routable set in place (here six workers), rather than
publishing an empty set; it only sleeps 30s. -/
theorem c4_counterexample :
    (checkServersPass 500 (fun _ => .exc) [] [] balSix).1 = balSix ∧
    balSix.backend_servers ≠ [] ∧
    (checkServersPass 500 (fun _ => .exc) [] [] balSix).2.2 = 30 := by
  decide

/-- C4 (amended): whenever a discovery pass finds zero workers it publishes
nothing — the balancer state and success log are unchanged, so workers from
an earlier pass remain routable — and waits 30s before retrying instead of
the normal 300s cadence. -/
theorem c4_amended_no_publish (now : ℚ) (probe : String → ProbeResult)
    (log : HostLog) (st : BalancerState) :
    checkServersPass now probe [] log st = (st, log, 30) := rfl

/-- C5: after every scale action performed by a tick (floor enforcement,
scale-out start, or either scale-in removal branch), both breach timers are
unset and `last_scale_time` is the `time.time()` stamp at which the action
fired (the pre-fetch stamp for floor enforcement, the post-fetch stamp for
the band actions). -/
theorem c5_action_clears_timers (cfg : Config) (st : AState) (containers : List Container)
    (now1 now2 ncpus : ℚ) (fetch : Option ℚ) (a : ScaleAction)
    (h : (scale cfg st containers now1 now2 ncpus fetch).2 = some a) :
    (scale cfg st containers now1 now2 ncpus fetch).1.above_since = none ∧
    (scale cfg st containers now1 now2 ncpus fetch).1.below_since = none ∧
    ((containers.length < cfg.min ∧
        (scale cfg st containers now1 now2 ncpus fetch).1.last_scale_time = some now1) ∨
     (¬ containers.length < cfg.min ∧
        (scale cfg st containers now1 now2 ncpus fetch).1.last_scale_time = some now2)) :=
  scale_action_clears cfg st containers now1 now2 ncpus fetch a h

/-- C5 (witness): the floor-enforcement action at an empty fleet clears both
timers and stamps the pre-fetch time 7. -/
theorem c5_action_clears_timers_witness :
    (scale cfg0 ⟨none, none, none⟩ [] 7 9 1 none).1.above_since = none ∧
    (scale cfg0 ⟨none, none, none⟩ [] 7 9 1 none).1.below_since = none ∧
    ((([] : List Container).length < cfg0.min ∧
        (scale cfg0 ⟨none, none, none⟩ [] 7 9 1 none).1.last_scale_time = some 7) ∨
     (¬ ([] : List Container).length < cfg0.min ∧
        (scale cfg0 ⟨none, none, none⟩ [] 7 9 1 none).1.last_scale_time = some 9)) :=
  c5_action_clears_timers cfg0 ⟨none, none, none⟩ [] 7 9 1 none .run (by decide)

/-- C9: when the metric fetch raises (and the tick has passed floor
enforcement and cooldown, which precede the fetch), the tick returns with the
timers and cooldown marker unchanged and performs no scale action. -/
theorem c9_fetch_failure_skips_tick (cfg : Config) (st : AState)
    (containers : List Container) (now1 now2 ncpus : ℚ)
    (hfloor : ¬ containers.length < cfg.min)
    (hcd : cooldown_skip cfg st now1 = false) :
    scale cfg st containers now1 now2 ncpus none = (st, none) := by
  simp only [scale, if_neg hfloor]
  rw [if_neg (by simp [hcd])]

/-- C9 (witness): a concrete failed fetch with one container and no cooldown
leaves the fresh state untouched. -/
theorem c9_fetch_failure_skips_tick_witness :
    scale cfg0 ⟨none, none, none⟩ [⟨"w1", true⟩] 0 0 1 none = (⟨none, none, none⟩, none) :=
  c9_fetch_failure_skips_tick cfg0 ⟨none, none, none⟩ [⟨"w1", true⟩] 0 0 1
    (by decide) (by decide)

/-- C3 (counterexample): with six healthy workers under round robin and every
forward failing, the claim predicts 5 worker selections; the code performs
only 3 (`choose_backend` is re-invoked only while `retry < 2`), then returns
502. -/
theorem c3_counterexample :
    (route_request balSix none (fun _ _ => none)).1 = .allFailed ∧
    (route_request balSix none (fun _ _ => none)).2.2 = 3 ∧
    (route_request balSix none (fun _ _ => none)).2.2 ≠ 5 := by
  decide

/-- C3 (amended): a `/load` request performs up to 5 forwarding rounds but at
most 3 worker selections (the initial one plus a re-selection after each of
the first two failed rounds; later failed rounds reuse the last selected
worker), and when every forward fails under round robin with a non-empty
healthy set, the request terminates with 502. -/
theorem c3_amended_retry_budget (st : BalancerState) (content_length : Option Nat)
    (fw : Nat → Server → Option Resp) :
    (route_request st content_length fw).2.2 ≤ 3 ∧
    (content_length = none →
      (∀ k s, fw k s = none) →
      st.selection_mode = "round_robin" →
      (st.backend_servers.filter (fun s => s.status == "healthy")).isEmpty = false →
      (route_request st content_length fw).1 = .allFailed) := by
  constructor
  · simp only [route_request]
    repeat' split
    all_goals try simp
    · exact le_trans (routeLoop_picks_le fw 5 _ _ 1 0) (by norm_num)
  · intro hcl hfw hm hne
    subst hcl
    rw [route_request_none]
    obtain ⟨w, hch⟩ := choose_backend_round_robin st hm hne
    rw [hch]
    exact routeLoop_all_fail fw hfw 5 w _ 1 0 hm hne

/-- C3 (witness): the amended bound and the 502 outcome at the concrete
six-worker state with an always-failing forward oracle. -/
theorem c3_amended_retry_budget_witness :
    (route_request balSix none (fun _ _ => none)).2.2 ≤ 3 ∧
    (route_request balSix none (fun _ _ => none)).1 = .allFailed :=
  ⟨(c3_amended_retry_budget balSix none (fun _ _ => none)).1,
   (c3_amended_retry_budget balSix none (fun _ _ => none)).2 rfl (fun _ _ => rfl) rfl
     (by decide)⟩

/-- C6: `/set_mode/<mode>` answers 400 and leaves the policy unchanged for
any mode outside the valid set, answers 200 installing the mode for any mode
inside it; yet with `least_connections` or `weighted` installed,
`choose_backend` on a non-empty healthy set raises `ValueError` instead of
returning a worker. -/
theorem c6_set_mode_policy (mode : String) (st st2 : BalancerState) :
    (valid_modes.contains mode = false → set_mode mode st = (400, st)) ∧
    (valid_modes.contains mode = true →
      set_mode mode st = (200, { st with selection_mode := mode })) ∧
    ((st2.selection_mode = "least_connections" ∨ st2.selection_mode = "weighted") →
      (st2.backend_servers.filter (fun s => s.status == "healthy")).isEmpty = false →
      choose_backend st2 = .error ("Unknown selection mode: " ++ st2.selection_mode)) := by
  refine ⟨?_, ?_, ?_⟩
  · intro h
    unfold set_mode
    rw [if_neg (by simpa using h)]
  · intro h
    unfold set_mode
    rw [if_pos h]
  · intro hm hne
    unfold choose_backend
    rw [dif_neg (by simp [hne])]
    rcases hm with h | h <;> rw [h] <;> rfl

/-- C6 (witness): installing `weighted` answers 200, and the next selection
over six healthy workers raises the unknown-mode error. -/
theorem c6_set_mode_policy_witness :
    set_mode "weighted" bal0 = (200, { bal0 with selection_mode := "weighted" }) ∧
    choose_backend { balSix with selection_mode := "weighted" }
      = .error ("Unknown selection mode: " ++ "weighted") :=
  ⟨(c6_set_mode_policy "weighted" bal0 bal0).2.1 (by decide),
   (c6_set_mode_policy "weighted" bal0 { balSix with selection_mode := "weighted" }).2.2
     (Or.inr rfl) (by decide)⟩

/-- C7 (counterexample): publishing a two-worker set over a prior cursor of 3
resets the cursor to 0 (`update_backend_servers`), so the next round-robin
selection returns the worker at index 0, not at index 3 mod 2 = 1 as the
claim states. -/
theorem c7_counterexample :
    choose_backend (update_backend_servers [mkServer "a", mkServer "b"] balCursor3)
      = .ok (some (mkServer "a"),
             { backend_servers := [mkServer "a", mkServer "b"], current_index := 1,
               selection_mode := "round_robin" }) ∧
    [mkServer "a", mkServer "b"].get? (3 % 2) = some (mkServer "b") ∧
    mkServer "a" ≠ mkServer "b" := by
  refine ⟨rfl, by decide, by decide⟩

/-- C7 (amended): on publish of a new all-healthy routable set of length
n > 0, the cursor carries over when it is < n and resets to 0 otherwise; the
next round-robin selection returns the worker at that index and advances the
cursor by one modulo n. -/
theorem c7_amended_cursor (st : BalancerState) (l : List Server)
    (hne : l ≠ []) (hh : ∀ s ∈ l, s.status = "healthy")
    (hm : st.selection_mode = "round_robin") :
    ∃ w, l.get? (if st.current_index < l.length then st.current_index else 0) = some w ∧
      choose_backend (update_backend_servers l st)
        = .ok (some w,
               { backend_servers := l,
                 current_index :=
                   ((if st.current_index < l.length then st.current_index else 0) + 1)
                     % l.length,
                 selection_mode := st.selection_mode }) := by
  have hfilter : l.filter (fun s => s.status == "healthy") = l := by
    rw [List.filter_eq_self]
    intro a ha
    simp [hh a ha]
  set c : Nat := if st.current_index < l.length then st.current_index else 0 with hc
  have hcl : c < l.length := by
    rw [hc]
    split
    · assumption
    · exact List.length_pos.mpr hne
  have hupd : update_backend_servers l st
      = { backend_servers := l, current_index := c, selection_mode := st.selection_mode } := by
    simp only [update_backend_servers]
    split
    · rename_i hge
      have hlt : ¬ st.current_index < l.length := by omega
      rw [hc]
      simp [hlt]
    · rename_i hge
      have hlt : st.current_index < l.length := by omega
      rw [hc]
      simp [hlt]
  rw [hupd]
  unfold choose_backend
  rw [dif_neg (by simp [hfilter, hne])]
  simp only [hm, beq_self_eq_true, if_true]
  refine ⟨l.get ⟨c, hcl⟩, List.get?_eq_get hcl, ?_⟩
  simp [hfilter, Nat.mod_eq_of_lt hcl]

/-- C7 (witness): the amended cursor behaviour at the concrete prior cursor 3
over a freshly published two-worker set. -/
theorem c7_amended_cursor_witness :
    ∃ w, [mkServer "a", mkServer "b"].get?
          (if balCursor3.current_index < [mkServer "a", mkServer "b"].length
           then balCursor3.current_index else 0) = some w ∧
      choose_backend (update_backend_servers [mkServer "a", mkServer "b"] balCursor3)
        = .ok (some w,
               { backend_servers := [mkServer "a", mkServer "b"],
                 current_index :=
                   ((if balCursor3.current_index < [mkServer "a", mkServer "b"].length
                     then balCursor3.current_index else 0) + 1)
                     % [mkServer "a", mkServer "b"].length,
                 selection_mode := balCursor3.selection_mode }) :=
  c7_amended_cursor balCursor3 [mkServer "a", mkServer "b"] (by decide) (by decide) rfl

/-- C8: in every state reachable by the tick loop (with a non-negative CPU
threshold, as configured), at most one of the two breach timers is set; both
are cleared by any scale action, and each is cleared by a metric-evaluating
tick whose average CPU lies outside the corresponding breach band. -/
theorem c8_at_most_one_breach_timer (cfg : Config) (s : AState)
    (hT : 0 ≤ cfg.threshold) (hr : Reachable cfg s) :
    atMostOne s ∧
    (∀ (containers : List Container) (now1 now2 ncpus : ℚ) (fetch : Option ℚ)
        (a : ScaleAction),
      (scale cfg s containers now1 now2 ncpus fetch).2 = some a →
      (scale cfg s containers now1 now2 ncpus fetch).1.above_since = none ∧
      (scale cfg s containers now1 now2 ncpus fetch).1.below_since = none) ∧
    (∀ (containers : List Container) (now1 now2 ncpus raw : ℚ),
      ¬ containers.length < cfg.min →
      cooldown_skip cfg s now1 = false →
      (¬ avg_cpu raw containers.length ncpus > cfg.threshold * 100 →
        (scale cfg s containers now1 now2 ncpus (some raw)).1.above_since = none) ∧
      (¬ avg_cpu raw containers.length ncpus < cfg.threshold * 100 / 2 →
        (scale cfg s containers now1 now2 ncpus (some raw)).1.below_since = none)) := by
  refine ⟨reachable_atMostOne cfg hT s hr, ?_, ?_⟩
  · intro containers now1 now2 ncpus fetch a h
    obtain ⟨h1, h2, _⟩ := scale_action_clears cfg s containers now1 now2 ncpus fetch a h
    exact ⟨h1, h2⟩
  · intro containers now1 now2 ncpus raw hfloor hcd
    have hs : scale cfg s containers now1 now2 ncpus (some raw)
        = apply_bands cfg s containers now2 (avg_cpu raw containers.length ncpus) := by
      simp only [scale, if_neg hfloor]
      rw [if_neg (by simp [hcd])]
    rw [hs]
    exact ⟨fun h => apply_bands_above_none _ _ _ _ _ h,
           fun h => apply_bands_below_none _ _ _ _ _ h⟩

/-- C8 (witness): the invariant at the initial autoscaler state under the
concrete configuration. -/
theorem c8_at_most_one_breach_timer_witness :
    atMostOne (⟨none, none, none⟩ : AState) :=
  (c8_at_most_one_breach_timer cfg0 ⟨none, none, none⟩ (by norm_num [cfg0])
    Reachable.init).1

/-- C10: the 5 MiB gate on `/load` tests only the declared Content-Length,
with Python truthiness: a missing (or zero) declared length never produces
413 and the request proceeds to worker selection exactly as when no length is
declared, regardless of actual body size. -/
theorem c10_content_length_gate (st : BalancerState) (content_length : Option Nat)
    (fw : Nat → Server → Option Resp)
    (h : content_length = none ∨ content_length = some 0) :
    (route_request st content_length fw).1 ≠ .tooLarge ∧
    1 ≤ (route_request st content_length fw).2.2 ∧
    route_request st content_length fw = route_request st none fw := by
  have hgate : route_request st content_length fw = route_request st none fw := by
    rcases h with rfl | rfl
    · rfl
    · rfl
  refine ⟨?_, ?_, hgate⟩
  · rw [hgate, route_request_none]
    cases hc : choose_backend st with
    | error msg => simp
    | ok p =>
      rcases p with ⟨os, st2⟩
      cases os with
      | none => simp
      | some s => exact routeLoop_not_tooLarge fw 5 s st2 1 0
  · rw [hgate, route_request_none]
    cases hc : choose_backend st with
    | error msg => simp
    | ok p =>
      rcases p with ⟨os, st2⟩
      cases os with
      | none => simp
      | some s => exact routeLoop_picks_ge fw 5 s st2 1 0

/-- C10 (witness): a declared Content-Length of 0 at the six-worker state is
not rejected and routes exactly as an absent length. -/
theorem c10_content_length_gate_witness :
    (route_request balSix (some 0) (fun _ _ => none)).1 ≠ .tooLarge ∧
    1 ≤ (route_request balSix (some 0) (fun _ _ => none)).2.2 ∧
    route_request balSix (some 0) (fun _ _ => none)
      = route_request balSix none (fun _ _ => none) :=
  c10_content_length_gate balSix (some 0) (fun _ _ => none) (Or.inr rfl)

end Fleet
